import Mathlib

/-!
Shallow embedding of the IRS forms catalog harvester
(src/scrapper/main.py, class IRSFormsScraper) and proofs about it.

HTML rows are modelled as trees of nodes; BeautifulSoup search
(find a span by class, find an anchor, element text) is modelled by
preorder traversal of those trees.  The stateful scraper is modelled
by explicit state passing: the filesystem of the download directory is
a map from filename to file bytes, the network is a function from URL
to an optional response (none models a thrown exception; some (s, b)
models a response with HTTP status s and body b), and the three run
counters are fields of the scraper state.
-/

/-- The parsed HTML inside one table cell: a sequence of sibling
nodes, written as a right-nested forest (nil ends a sibling list; each
constructor carries the following siblings as its last argument).  A
node is an anchor with visible text and an optional href attribute, a
span with a class list and children, any other element with children,
or a bare text node. -/
inductive Dom where
  | nil : Dom
  | anchor : String → Option String → Dom → Dom
  | span : List String → Dom → Dom → Dom
  | elem : Dom → Dom → Dom
  | txt : String → Dom → Dom

/-- A table cell is the forest of its child nodes. -/
abbrev Cell := Dom

/-- A table row is its list of cells (the result of find_all td). -/
abbrev Row := List Cell

/-- BeautifulSoup .text: concatenation of all visible text in document
order (an anchor contributes its visible text). -/
def textList : Dom → String
  | .nil => ""
  | .anchor t _ ns => t ++ textList ns
  | .span _ cs ns => textList cs ++ textList ns
  | .elem cs ns => textList cs ++ textList ns
  | .txt s ns => s ++ textList ns

/-- BeautifulSoup find of the first anchor element in preorder,
returning its visible text and href attribute. -/
def findAList : Dom → Option (String × Option String)
  | .nil => none
  | .anchor t h _ => some (t, h)
  | .span _ cs ns =>
    match findAList cs with
    | some r => some r
    | none => findAList ns
  | .elem cs ns =>
    match findAList cs with
    | some r => some r
    | none => findAList ns
  | .txt _ ns => findAList ns

/-- BeautifulSoup find of the first span element in preorder whose
class attribute contains tablesaw-cell-content, returning its
children. -/
def findSpanList : Dom → Option Dom
  | .nil => none
  | .anchor _ _ ns => findSpanList ns
  | .span cls cs ns =>
    if cls.contains "tablesaw-cell-content" then some cs
    else
      match findSpanList cs with
      | some r => some r
      | none => findSpanList ns
  | .elem cs ns =>
    match findSpanList cs with
    | some r => some r
    | none => findSpanList ns
  | .txt _ ns => findSpanList ns

/-- Whether a forest of nodes contains any anchor element at all. -/
def hasAnchorList : Dom → Bool
  | .nil => false
  | .anchor _ _ _ => true
  | .span _ cs ns => hasAnchorList cs || hasAnchorList ns
  | .elem cs ns => hasAnchorList cs || hasAnchorList ns
  | .txt _ ns => hasAnchorList ns

/-- Python str.lower (the scraped strings are ASCII). -/
def py_lower (s : String) : String := ⟨s.data.map Char.toLower⟩

/-- Python str.strip: remove leading and trailing whitespace. -/
def py_strip (s : String) : String :=
  ⟨((s.data.dropWhile Char.isWhitespace).reverse.dropWhile Char.isWhitespace).reverse⟩

/-- Python str.startswith. -/
def py_startswith (s pre : String) : Bool := pre.data.isPrefixOf s.data

/-- Python str.endswith. -/
def py_endswith (s suf : String) : Bool := suf.data.isSuffixOf s.data

/-- Whether the pattern p occurs as a contiguous run inside the second
list (helper for Python substring membership). -/
def subOccurs (p : List Char) : List Char → Bool
  | [] => p.isEmpty
  | c :: rest => p.isPrefixOf (c :: rest) || subOccurs p rest

/-- Python str.split on a single separator character, keeping empty
pieces, as str.split does. -/
def splitOnChar (sep : Char) : List Char → List (List Char)
  | [] => [[]]
  | c :: rest =>
    let r := splitOnChar sep rest
    if c = sep then [] :: r
    else
      match r with
      | g :: gs => (c :: g) :: gs
      | [] => [[c]]

/-- Python url.split slash [-1]: the substring after the last slash. -/
def lastSeg (s : String) : String := ⟨(splitOnChar '/' s.data).getLastD []⟩

/-- One catalog entry, as built by extract_form_info. -/
structure FormInfo where
  product_number : String
  title : String
  revision_date : String
  posted_date : String
  pdf_url : String
  filename : String
  scraped_date : String
deriving DecidableEq

/-- Python substring containment: pat in s. -/
def strContains (s pat : String) : Bool :=
  subOccurs pat.data s.data

/-- self.base_url of the scraper. -/
def base_url : String := "https://www.irs.gov"

/-- extract_form_info of src/scrapper/main.py.  The now argument
models datetime.now().isoformat().  Returns none for rows with fewer
than 4 cells and for rows whose product cell yields no link element,
mirroring the return None paths; the embedding being a total function
mirrors the catch-all except that turns any extraction error into
None. -/
def extract_form_info (now : String) (row : Row) : Option FormInfo :=
  match row with
  | product_cell :: title_cell :: revision_date_cell :: posted_date_cell :: _ =>
    let link_elem :=
      match findSpanList product_cell with
      | some span_children => findAList span_children
      | none => findAList product_cell
    match link_elem with
    | none => none
    | some (link_text, link_href) =>
      let pdf_url_raw := link_href.getD ""
      let pdf_url :=
        if pdf_url_raw != "" && !(py_startswith pdf_url_raw "http") then
          base_url ++ pdf_url_raw
        else pdf_url_raw
      some {
        product_number := py_strip link_text,
        title := py_strip (textList title_cell),
        revision_date := py_strip (textList revision_date_cell),
        posted_date := py_strip (textList posted_date_cell),
        pdf_url := pdf_url,
        filename := if pdf_url != "" then lastSeg pdf_url else "",
        scraped_date := now }
  | _ => none

/-- The fixed list of key publication titles of is_important_form. -/
def important_pubs : List String :=
  ["publication 17", "publication 334", "publication 535",
   "publication 946", "publication 970", "publication 523", "publication 936"]

/-- is_important_form of src/scrapper/main.py, the relevance
classifier.  Note that product_number and title are lowercased first,
exactly as in the source, so the mixed-case membership tests of the
first rule are evaluated against the lowercased title. -/
def is_important_form (fi : FormInfo) : Bool :=
  let product_number := py_lower fi.product_number
  let title := py_lower fi.title
  if strContains title "version)" || strContains title "Version" ||
     strContains title "Spanish" || strContains title "Chinese" ||
     strContains title "Vietnamese" then
    false
  else if ["1040", "w-2", "w-4", "1099"].any (fun p => py_startswith product_number p) then
    true
  else if ["1120", "1065", "1041", "941", "940"].any (fun p => py_startswith product_number p) then
    true
  else if strContains product_number "schedule" || strContains title "schedule" then
    true
  else if important_pubs.any (fun pub => strContains title pub) then
    true
  else if strContains title "instructions for form" || strContains title "instructions for schedule" then
    true
  else
    false

/-- Rule 1 of the classifier in isolation: the non-English-version
rejection test, exactly as the source evaluates it (membership tests
against the lowercased title). -/
def rule1Rejects (fi : FormInfo) : Bool :=
  let title := py_lower fi.title
  strContains title "version)" || strContains title "Version" ||
  strContains title "Spanish" || strContains title "Chinese" ||
  strContains title "Vietnamese"

/-- Mutable state of one IRSFormsScraper instance: the three run
counters together with the contents of the download directory
(a map from filename to file bytes; none means the file is absent). -/
structure ScrapeState where
  total_forms_found : Nat
  important_forms_found : Nat
  downloaded_count : Nat
  fs : String → Option (List Nat)

/-- State of a freshly constructed IRSFormsScraper: all three counters
are zero; the download directory may already hold files. -/
def initState (fs : String → Option (List Nat)) : ScrapeState :=
  { total_forms_found := 0, important_forms_found := 0,
    downloaded_count := 0, fs := fs }

/-- A network response for one GET: none models a thrown exception,
some (status, body) a completed HTTP response. -/
abbrev NetResponse := Option (Nat × List Nat)

/-- download_pdf of src/scrapper/main.py.  The resp argument is the
response the network would give for the record's pdf_url.  Returns the
updated state together with a flag telling whether a network fetch was
performed (false on the early returns for an empty filename or an
already existing file).  All failure paths (exception, non-200 status)
are caught in the source, hence the embedding is total. -/
def download_pdf (resp : NetResponse) (st : ScrapeState) (fi : FormInfo) : ScrapeState × Bool :=
  let filename := fi.filename
  if filename = "" then (st, false)
  else if (st.fs filename).isSome then (st, false)
  else
    match resp with
    | none => (st, true)
    | some (status, body) =>
      if status = 200 then
        ({ st with
            fs := fun n => if n = filename then some body else st.fs n,
            downloaded_count := st.downloaded_count + 1 }, true)
      else (st, true)

/-- One iteration of the row loop of scrape_all_pages (lines 141-163 of
the source): extract the row; if a record results, bump the total
counter, drop it when filtering is on and the classifier rejects it,
otherwise bump the important counter, download its artifact when the
pdf_url is non-empty and ends in .pdf, and keep the record.  The net
argument maps each URL to the response its GET would produce. -/
def processRow (filterOn : Bool) (net : String → NetResponse) (now : String)
    (st : ScrapeState) (row : Row) : ScrapeState × Option FormInfo :=
  match extract_form_info now row with
  | none => (st, none)
  | some form_info =>
    let st1 := { st with total_forms_found := st.total_forms_found + 1 }
    if filterOn && !(is_important_form form_info) then (st1, none)
    else
      let st2 := { st1 with important_forms_found := st1.important_forms_found + 1 }
      let st3 :=
        if form_info.pdf_url != "" && py_endswith form_info.pdf_url ".pdf" then
          (download_pdf (net form_info.pdf_url) st2 form_info).1
        else st2
      (st3, some form_info)

/-- The row loop over all rows of one page, collecting
page_forms_data in order. -/
def processRows (filterOn : Bool) (net : String → NetResponse) (now : String) :
    ScrapeState → List Row → ScrapeState × List FormInfo
  | st, [] => (st, [])
  | st, row :: rest =>
    let pr := processRow filterOn net now st row
    let r := processRows filterOn net now pr.1 rest
    match pr.2 with
    | some fi => (r.1, fi :: r.2)
    | none => (r.1, r.2)

/-- One page of the paginated listing as the harvester sees it:
either the expected table was found (some, with its list of tr rows,
header included) or not (none, modelling both a missing table and a
navigation/readiness timeout). -/
structure PageContent where
  table : Option (List Row)

/-- Python truthiness of the max_pages argument: None and 0 are falsy. -/
def pyTruthy : Option Nat → Bool
  | none => false
  | some n => n != 0

/-- The while loop of scrape_all_pages: at each iteration first check
the page cap (if max_pages and current_page > max_pages), then
navigate (an exhausted page list models the absent next-page link),
then require the table (none stops the harvest), then process the
rows after the header (rows drop 1) and recurse on the next page.
Returns the final state and all_forms_data. -/
def scrapeLoop (filterOn : Bool) (net : String → NetResponse) (now : String)
    (max_pages : Option Nat) :
    Nat → List PageContent → ScrapeState → ScrapeState × List FormInfo
  | current_page, pages, st =>
    if pyTruthy max_pages && decide (current_page > max_pages.getD 0) then (st, [])
    else
      match pages with
      | [] => (st, [])
      | p :: rest =>
        match p.table with
        | none => (st, [])
        | some trs =>
          let pr := processRows filterOn net now st (trs.drop 1)
          let r := scrapeLoop filterOn net now max_pages (current_page + 1) rest pr.1
          (r.1, pr.2 ++ r.2)

/-- save_metadata of src/scrapper/main.py: the CSV file is written,
overwriting any previous contents, only when forms_data is non-empty
(if forms_data:); otherwise the previous file state is left as is.
The file is modelled as the optional list of rows it holds. -/
def save_metadata (forms_data : List FormInfo) (file : Option (List FormInfo)) :
    Option (List FormInfo) :=
  if forms_data.isEmpty then file else some forms_data

/-- scrape_all_pages of src/scrapper/main.py, end to end: run the page
loop starting at page 1, then (always, both on completion of the loop
and after a caught error ended it) save the metadata once.  Returns
the final scraper state, the returned all_forms_data and the final
metadata file. -/
def scrape_all_pages (filterOn : Bool) (net : String → NetResponse) (now : String)
    (max_pages : Option Nat) (pages : List PageContent) (st : ScrapeState)
    (metadata_file : Option (List FormInfo)) :
    ScrapeState × List FormInfo × Option (List FormInfo) :=
  let r := scrapeLoop filterOn net now max_pages 1 pages st
  (r.1, r.2, save_metadata r.2 metadata_file)

/-- Helper to build a FormRecord with the fields the classifier and
downloader look at; the date fields are irrelevant to every claim. -/
def mkForm (pn t url fn : String) : FormInfo :=
  { product_number := pn, title := t, revision_date := "", posted_date := "",
    pdf_url := url, filename := fn, scraped_date := "" }

/-- C1 counterexample: the record with product_number x and title
Spanish Schedule has a title containing Spanish, yet the classifier
accepts it (rule 4 fires), because the source lowercases the title
before testing the mixed-case literal Spanish, which therefore never
matches; so the claimed case-insensitive rule-1 rejection is false. -/
theorem c1_spanish_schedule_accepted :
    strContains (mkForm "x" "Spanish Schedule" "" "").title "Spanish" = true ∧
    is_important_form (mkForm "x" "Spanish Schedule" "" "") = true :=
  ⟨by decide, by decide⟩

/-- C1 (amended): the classifier rejects every record whose lowercased
title contains the substring version), and this rejection takes
precedence over all later rules (the conclusion holds whatever the
rest of the record is, in particular when rule 4 would accept it). -/
theorem c1_rule1_version_paren_rejects (fi : FormInfo)
    (h : strContains (py_lower fi.title) "version)" = true) :
    is_important_form fi = false := by
  simp [is_important_form, h]

/-- C1 witness: a record whose title contains both Version) and
Schedule is rejected, even though rule 4 accepts titles containing
schedule. -/
theorem c1_amended_witness :
    strContains (py_lower (mkForm "x" "Schedule B (Spanish Version)" "" "").title) "version)" = true ∧
    strContains (py_lower (mkForm "x" "Schedule B (Spanish Version)" "" "").title) "schedule" = true ∧
    is_important_form (mkForm "x" "Schedule B (Spanish Version)" "" "") = false :=
  ⟨by decide, by decide, c1_rule1_version_paren_rejects _ (by decide)⟩

/-- C6: every record that rule 1 does not reject and whose lowercased
product_number starts with one of the prefixes 1040, w-2, w-4, 1099 is
classified relevant. -/
theorem c6_core_prefix_accepted (fi : FormInfo)
    (h1 : rule1Rejects fi = false)
    (h2 : ["1040", "w-2", "w-4", "1099"].any
      (fun p => py_startswith (py_lower fi.product_number) p) = true) :
    is_important_form fi = true := by
  simp only [rule1Rejects] at h1
  simp [is_important_form, h1, h2]

/-- C6 witness: the record with product_number 1040 and title
U.S. Individual Income Tax Return is classified relevant. -/
theorem c6_witness :
    rule1Rejects (mkForm "1040" "U.S. Individual Income Tax Return" "https://x/f1040.pdf" "f1040.pdf") = false ∧
    ["1040", "w-2", "w-4", "1099"].any
      (fun p => py_startswith (py_lower (mkForm "1040" "U.S. Individual Income Tax Return" "https://x/f1040.pdf" "f1040.pdf").product_number) p) = true ∧
    is_important_form (mkForm "1040" "U.S. Individual Income Tax Return" "https://x/f1040.pdf" "f1040.pdf") = true :=
  ⟨by decide, by decide, c6_core_prefix_accepted _ (by decide) (by decide)⟩

/-- How the filename field of an extracted record depends on the
pdf_url field it is computed from. -/
theorem filename_if_empty (u : String) :
    (u = "" → (if u != "" then lastSeg u else "") = "") ∧
    (u ≠ "" → (if u != "" then lastSeg u else "") = lastSeg u) := by
  constructor
  · intro h; subst h; simp
  · intro h; simp [h]

/-- C2 counterexample: a row whose product link href is just a slash
extracts to a record with a non-empty artifact URL (the base URL plus
the slash) and an empty filename, so filename-empty does not imply
artifact-url-empty and the claimed iff is false. -/
theorem c2_slash_url_empty_filename :
    (extract_form_info "T" [Dom.anchor "W-9" (some "/") Dom.nil,
        Dom.txt "t" Dom.nil, Dom.txt "r" Dom.nil, Dom.txt "p" Dom.nil]).map
      (fun fi => (fi.pdf_url, fi.filename)) = some ("https://www.irs.gov/", "") ∧
    "https://www.irs.gov/" ≠ "" := by
  exact ⟨by decide, by decide⟩

/-- C2 (amended): for every record produced by row extraction, an
empty artifact URL gives an empty filename, and a non-empty artifact
URL gives as filename the substring after its last slash, which is
itself empty exactly when the URL ends in a slash. -/
theorem c2_filename_from_url (now : String) (row : Row) (fi : FormInfo)
    (h : extract_form_info now row = some fi) :
    (fi.pdf_url = "" → fi.filename = "") ∧
    (fi.pdf_url ≠ "" → fi.filename = lastSeg fi.pdf_url) := by
  rcases row with _ | ⟨c0, _ | ⟨c1, _ | ⟨c2, _ | ⟨c3, rest⟩⟩⟩⟩ <;>
    simp only [extract_form_info] at h
  · exact absurd h (by simp)
  · exact absurd h (by simp)
  · exact absurd h (by simp)
  · exact absurd h (by simp)
  · split at h
    · exact absurd h (by simp)
    · simp only [Option.some.injEq] at h
      subst h
      exact ⟨fun hpu => (filename_if_empty _).1 hpu, fun hpu => (filename_if_empty _).2 hpu⟩

/-- C2 witness: a well-formed row extracts to a record whose filename
is the substring of its pdf_url after the last slash. -/
theorem c2_witness :
    extract_form_info "" [Dom.anchor "1040" (some "https://x/f1040.pdf") Dom.nil,
        Dom.txt "Title" Dom.nil, Dom.txt "" Dom.nil, Dom.txt "" Dom.nil] =
      some (mkForm "1040" "Title" "https://x/f1040.pdf" "f1040.pdf") ∧
    (mkForm "1040" "Title" "https://x/f1040.pdf" "f1040.pdf").pdf_url ≠ "" ∧
    (mkForm "1040" "Title" "https://x/f1040.pdf" "f1040.pdf").filename =
      lastSeg (mkForm "1040" "Title" "https://x/f1040.pdf" "f1040.pdf").pdf_url :=
  ⟨by decide, by decide,
    (c2_filename_from_url ""
      [Dom.anchor "1040" (some "https://x/f1040.pdf") Dom.nil,
       Dom.txt "Title" Dom.nil, Dom.txt "" Dom.nil, Dom.txt "" Dom.nil]
      (mkForm "1040" "Title" "https://x/f1040.pdf" "f1040.pdf")
      (by decide)).2 (by decide)⟩

/-- A forest with no anchor yields no result when searching for the
first anchor. -/
theorem findAList_eq_none : ∀ d : Dom, hasAnchorList d = false → findAList d = none := by
  intro d
  induction d with
  | nil => intro _; rfl
  | anchor t href ns ihn => intro h; simp [hasAnchorList] at h
  | span cls cs ns ihc ihn =>
    intro h
    simp only [hasAnchorList, Bool.or_eq_false_iff] at h
    simp [findAList, ihc h.1, ihn h.2]
  | elem cs ns ihc ihn =>
    intro h
    simp only [hasAnchorList, Bool.or_eq_false_iff] at h
    simp [findAList, ihc h.1, ihn h.2]
  | txt s ns ihn =>
    intro h
    simp only [hasAnchorList] at h
    simp [findAList, ihn h]

/-- The children returned by the span search are part of the searched
forest, so an anchor-free forest gives anchor-free children. -/
theorem findSpan_no_anchor :
    ∀ d scs : Dom, findSpanList d = some scs → hasAnchorList d = false →
      hasAnchorList scs = false := by
  intro d
  induction d with
  | nil => intro scs h; simp [findSpanList] at h
  | anchor t href ns ihn =>
    intro scs h ha
    simp only [findSpanList] at h
    simp only [hasAnchorList] at ha
    exact absurd ha (by simp)
  | span cls cs ns ihc ihn =>
    intro scs h ha
    simp only [hasAnchorList, Bool.or_eq_false_iff] at ha
    simp only [findSpanList] at h
    split at h
    · exact (Option.some.injEq _ _ ▸ h) ▸ ha.1
    · split at h
      · next r heq =>
        cases h
        exact ihc scs heq ha.1
      · exact ihn scs h ha.2
  | elem cs ns ihc ihn =>
    intro scs h ha
    simp only [hasAnchorList, Bool.or_eq_false_iff] at ha
    simp only [findSpanList] at h
    split at h
    · next r heq =>
      cases h
      exact ihc scs heq ha.1
    · exact ihn scs h ha.2
  | txt s ns ihn =>
    intro scs h ha
    simp only [findSpanList] at h
    simp only [hasAnchorList] at ha
    exact ihn scs h ha

/-- C7: extraction returns no record, rather than raising, for every
row with fewer than 4 cells, and for every row whose first cell
contains no anchor element, whatever the other cells hold (the
embedding being a total function mirrors that no error is raised). -/
theorem c7_no_record (now : String) (row : Row) :
    (row.length < 4 → extract_form_info now row = none) ∧
    (∀ c0 rest, row = c0 :: rest → hasAnchorList c0 = false →
      extract_form_info now row = none) := by
  constructor
  · intro h
    rcases row with _ | ⟨c0, _ | ⟨c1, _ | ⟨c2, _ | ⟨c3, r⟩⟩⟩⟩
    · rfl
    · rfl
    · rfl
    · rfl
    · exfalso; simp [List.length] at h; omega
  · intro c0 rest hrow ha
    subst hrow
    rcases rest with _ | ⟨c1, _ | ⟨c2, _ | ⟨c3, r⟩⟩⟩
    · rfl
    · rfl
    · rfl
    · cases hs : findSpanList c0 with
      | none => simp [extract_form_info, hs, findAList_eq_none c0 ha]
      | some scs =>
        have hscs : hasAnchorList scs = false := findSpan_no_anchor c0 scs hs ha
        simp [extract_form_info, hs, findAList_eq_none scs hscs]

/-- C7 witness: a one-cell row and a four-cell row with no link in the
first cell both extract to no record. -/
theorem c7_witness :
    extract_form_info "T" [Dom.txt "a" Dom.nil] = none ∧
    extract_form_info "T" [Dom.txt "a" Dom.nil, Dom.txt "b" Dom.nil,
      Dom.txt "c" Dom.nil, Dom.txt "d" Dom.nil] = none :=
  ⟨(c7_no_record "T" _).1 (by decide),
   (c7_no_record "T" _).2 (Dom.txt "a" Dom.nil) _ rfl (by decide)⟩

/-- C4 counterexample: with no pre-existing file and a 404 response,
the first run writes nothing, so the second run of the downloader on
the same record and directory performs a second network fetch; the
claimed at-most-one-fetch across two runs is false when the first
fetch fails. -/
theorem c4_two_fetches_after_404 :
    (download_pdf (some (404, [])) (initState (fun _ => none))
      (mkForm "f404" "t" "https://x/f404.pdf" "f404.pdf")).2 = true ∧
    (download_pdf (some (404, []))
      (download_pdf (some (404, [])) (initState (fun _ => none))
        (mkForm "f404" "t" "https://x/f404.pdf" "f404.pdf")).1
      (mkForm "f404" "t" "https://x/f404.pdf" "f404.pdf")).2 = true :=
  ⟨by decide, by decide⟩

/-- C4 (amended): if the record's filename already exists in the
destination directory the downloader is a complete no-op with no
network fetch; consequently, when the first run's fetch succeeds with
status 200, a second run against the same directory performs no fetch
and leaves the stored file byte-identical to the downloaded body.
When the first fetch fails, however, no file is created and a later
run fetches again. -/
theorem c4_skip_and_idempotence :
    (∀ (resp : NetResponse) (st : ScrapeState) (fi : FormInfo) (b : List Nat),
      st.fs fi.filename = some b → download_pdf resp st fi = (st, false)) ∧
    (∀ (st : ScrapeState) (fi : FormInfo) (body : List Nat) (resp2 : NetResponse),
      st.fs fi.filename = none → fi.filename ≠ "" →
      download_pdf resp2 (download_pdf (some (200, body)) st fi).1 fi =
        ((download_pdf (some (200, body)) st fi).1, false) ∧
      (download_pdf (some (200, body)) st fi).1.fs fi.filename = some body) := by
  constructor
  · intro resp st fi b h
    by_cases h0 : fi.filename = ""
    · simp [download_pdf, h0]
    · simp [download_pdf, h0, h]
  · intro st fi body resp2 hnone hne
    simp [download_pdf, hne, hnone]

/-- C4 witness: the skip branch at a directory already holding the
file, and the fetch-once consequence after one successful download. -/
theorem c4_witness :
    download_pdf (some (200, [2]))
      (initState (fun n => if n = "w9.pdf" then some [1] else none))
      (mkForm "W-9" "t" "https://x/w9.pdf" "w9.pdf") =
      (initState (fun n => if n = "w9.pdf" then some [1] else none), false) ∧
    (download_pdf none
      (download_pdf (some (200, [7])) (initState (fun _ => none))
        (mkForm "1040" "t" "https://x/f1040.pdf" "f1040.pdf")).1
      (mkForm "1040" "t" "https://x/f1040.pdf" "f1040.pdf") =
      ((download_pdf (some (200, [7])) (initState (fun _ => none))
        (mkForm "1040" "t" "https://x/f1040.pdf" "f1040.pdf")).1, false) ∧
     (download_pdf (some (200, [7])) (initState (fun _ => none))
        (mkForm "1040" "t" "https://x/f1040.pdf" "f1040.pdf")).1.fs
        (mkForm "1040" "t" "https://x/f1040.pdf" "f1040.pdf").filename = some [7]) :=
  ⟨c4_skip_and_idempotence.1 (some (200, [2]))
      (initState (fun n => if n = "w9.pdf" then some [1] else none))
      (mkForm "W-9" "t" "https://x/w9.pdf" "w9.pdf") [1] (by decide),
   c4_skip_and_idempotence.2 (initState (fun _ => none))
      (mkForm "1040" "t" "https://x/f1040.pdf" "f1040.pdf") [7] none
      (by decide) (by decide)⟩

/-- A network outcome in which the artifact fetch does not succeed:
either an exception (none) or any completed response whose status is
not 200. -/
def fetchFails (resp : NetResponse) : Prop :=
  ∀ s b, resp = some (s, b) → s ≠ 200

/-- A failed fetch leaves the scraper state untouched: no file is
written and no counter is incremented. -/
theorem download_pdf_noop_of_fail (resp : NetResponse) (st : ScrapeState)
    (fi : FormInfo) (h : fetchFails resp) : (download_pdf resp st fi).1 = st := by
  by_cases h0 : fi.filename = ""
  · simp [download_pdf, h0]
  · by_cases h1 : (st.fs fi.filename).isSome
    · simp [download_pdf, h0, h1]
    · rcases resp with _ | ⟨s, b⟩
      · simp [download_pdf, h0, h1]
      · have hs : s ≠ 200 := h s b rfl
        simp [download_pdf, h0, h1, hs]

/-- C5: when the artifact fetch of a relevant record returns a non-200
status or throws, no file is written, the downloaded counter stays
put, and the record is still kept (so it reaches all_forms_data and
hence the metadata) exactly as extracted, its pdf_url and filename
fields included; the call never propagates an exception (the embedding
is a total function because every failure path in the source is
caught). -/
theorem c5_failed_download_keeps_record (net : String → NetResponse) (now : String)
    (st : ScrapeState) (row : Row) (fi : FormInfo)
    (hx : extract_form_info now row = some fi)
    (himp : is_important_form fi = true)
    (hfail : fetchFails (net fi.pdf_url)) :
    (processRow true net now st row).2 = some fi ∧
    (processRow true net now st row).1.fs = st.fs ∧
    (processRow true net now st row).1.downloaded_count = st.downloaded_count := by
  simp only [processRow, hx, himp, Bool.not_true, Bool.and_false, Bool.false_eq_true,
    if_false]
  by_cases hp : (fi.pdf_url != "" && py_endswith fi.pdf_url ".pdf") = true
  · simp [hp, download_pdf_noop_of_fail _ _ _ hfail]
  · simp [hp]

/-- C5 witness: a relevant 1040 row whose fetch returns 404 is kept
with its URL and filename while filesystem and download counter are
unchanged. -/
theorem c5_witness :
    (processRow true (fun _ => some (404, [])) ""
      (initState (fun _ => none))
      [Dom.anchor "1040" (some "https://x/f1040.pdf") Dom.nil,
       Dom.txt "Title" Dom.nil, Dom.txt "" Dom.nil, Dom.txt "" Dom.nil]).2 =
      some (mkForm "1040" "Title" "https://x/f1040.pdf" "f1040.pdf") ∧
    (processRow true (fun _ => some (404, [])) ""
      (initState (fun _ => none))
      [Dom.anchor "1040" (some "https://x/f1040.pdf") Dom.nil,
       Dom.txt "Title" Dom.nil, Dom.txt "" Dom.nil, Dom.txt "" Dom.nil]).1.fs =
      (initState (fun _ => none)).fs ∧
    (processRow true (fun _ => some (404, [])) ""
      (initState (fun _ => none))
      [Dom.anchor "1040" (some "https://x/f1040.pdf") Dom.nil,
       Dom.txt "Title" Dom.nil, Dom.txt "" Dom.nil, Dom.txt "" Dom.nil]).1.downloaded_count =
      (initState (fun _ => none)).downloaded_count :=
  c5_failed_download_keeps_record (fun _ => some (404, [])) ""
    (initState (fun _ => none))
    [Dom.anchor "1040" (some "https://x/f1040.pdf") Dom.nil,
     Dom.txt "Title" Dom.nil, Dom.txt "" Dom.nil, Dom.txt "" Dom.nil]
    (mkForm "1040" "Title" "https://x/f1040.pdf" "f1040.pdf")
    (by decide) (by decide)
    (by intro s b hb; cases hb; decide)

/-- The downloader never touches the important counter. -/
theorem download_pdf_important (resp : NetResponse) (st : ScrapeState) (fi : FormInfo) :
    (download_pdf resp st fi).1.important_forms_found = st.important_forms_found := by
  rcases resp with _ | ⟨s, b⟩ <;>
    simp only [download_pdf] <;> split <;> try rfl
  · split <;> rfl
  · split
    · rfl
    · split <;> rfl

/-- The downloader never touches the total counter. -/
theorem download_pdf_total (resp : NetResponse) (st : ScrapeState) (fi : FormInfo) :
    (download_pdf resp st fi).1.total_forms_found = st.total_forms_found := by
  rcases resp with _ | ⟨s, b⟩ <;>
    simp only [download_pdf] <;> split <;> try rfl
  · split <;> rfl
  · split
    · rfl
    · split <;> rfl

/-- The downloader increments the downloaded counter at most once. -/
theorem download_pdf_downloaded_le (resp : NetResponse) (st : ScrapeState) (fi : FormInfo) :
    (download_pdf resp st fi).1.downloaded_count ≤ st.downloaded_count + 1 := by
  rcases resp with _ | ⟨s, b⟩ <;> simp only [download_pdf] <;> split
  · exact Nat.le_succ _
  · split
    · exact Nat.le_succ _
    · exact Nat.le_succ _
  · exact Nat.le_succ _
  · split
    · exact Nat.le_succ _
    · split
      · exact Nat.le_refl _
      · exact Nat.le_succ _

/-- How one row-processing step moves the counters: the important
counter grows exactly by one per kept record; the total counter grows
by one exactly when a record was extracted (and is never decremented);
with filtering disabled every extracted record is kept, tying total
growth to kept records; and the downloaded counter grows by at most
one, only for a kept record. -/
theorem processRow_counters (f : Bool) (net : String → NetResponse) (now : String)
    (st : ScrapeState) (row : Row) :
    (processRow f net now st row).1.important_forms_found =
      st.important_forms_found +
        (if (processRow f net now st row).2.isSome then 1 else 0) ∧
    ((processRow f net now st row).2.isSome = true →
      (processRow f net now st row).1.total_forms_found = st.total_forms_found + 1) ∧
    st.total_forms_found ≤ (processRow f net now st row).1.total_forms_found ∧
    (f = false →
      (processRow f net now st row).1.total_forms_found =
        st.total_forms_found +
          (if (processRow f net now st row).2.isSome then 1 else 0)) ∧
    (processRow f net now st row).1.downloaded_count ≤
      st.downloaded_count + (if (processRow f net now st row).2.isSome then 1 else 0) := by
  cases hx : extract_form_info now row with
  | none => simp [processRow, hx]
  | some fi =>
    by_cases hf : (f && !(is_important_form fi)) = true
    · have hft : f = true := by
        cases f
        · simp at hf
        · rfl
      subst hft
      simp [processRow, hx, hf]
    · by_cases hp : (fi.pdf_url != "" && py_endswith fi.pdf_url ".pdf") = true
      · refine ⟨?_, ?_, ?_, ?_, ?_⟩ <;>
          simp [processRow, hx, hf, hp, download_pdf_important, download_pdf_total]
        · exact le_trans (download_pdf_downloaded_le _ _ _) (Nat.le_refl _)
      · refine ⟨?_, ?_, ?_, ?_, ?_⟩ <;>
          simp [processRow, hx, hf, hp]

/-- The invariant of C9 over the run counters. -/
def counterInv (st : ScrapeState) : Prop :=
  st.downloaded_count ≤ st.important_forms_found ∧
  st.important_forms_found ≤ st.total_forms_found

/-- One row step preserves the counter ordering. -/
theorem processRow_inv (f : Bool) (net : String → NetResponse) (now : String)
    (st : ScrapeState) (row : Row) (h : counterInv st) :
    counterInv (processRow f net now st row).1 := by
  obtain ⟨h1, h2, h3, _, h5⟩ := processRow_counters f net now st row
  obtain ⟨hd, hi⟩ := h
  by_cases hs : (processRow f net now st row).2.isSome = true
  · have h2' := h2 hs
    simp [hs] at h1 h5
    exact ⟨by omega, by omega⟩
  · rw [Bool.not_eq_true] at hs
    simp [hs] at h1 h5
    exact ⟨by omega, by omega⟩

/-- The row loop adds to the important counter exactly the number of
records it keeps. -/
theorem processRows_important (f : Bool) (net : String → NetResponse) (now : String) :
    ∀ (rows : List Row) (st : ScrapeState),
    (processRows f net now st rows).1.important_forms_found =
      st.important_forms_found + (processRows f net now st rows).2.length := by
  intro rows
  induction rows with
  | nil => intro st; simp [processRows]
  | cons row rest ih =>
    intro st
    have h1 := (processRow_counters f net now st row).1
    cases hpr : (processRow f net now st row).2 with
    | none =>
      simp [hpr] at h1
      simp only [processRows, hpr]
      rw [ih, h1]
    | some fi =>
      simp [hpr] at h1
      simp only [processRows, hpr]
      rw [ih, h1]
      simp [List.length_cons]
      omega

/-- With filtering disabled, the row loop adds to the total counter
exactly the number of records it returns. -/
theorem processRows_total_false (net : String → NetResponse) (now : String) :
    ∀ (rows : List Row) (st : ScrapeState),
    (processRows false net now st rows).1.total_forms_found =
      st.total_forms_found + (processRows false net now st rows).2.length := by
  intro rows
  induction rows with
  | nil => intro st; simp [processRows]
  | cons row rest ih =>
    intro st
    have h1 := (processRow_counters false net now st row).2.2.2.1 rfl
    cases hpr : (processRow false net now st row).2 with
    | none =>
      simp [hpr] at h1
      simp only [processRows, hpr]
      rw [ih, h1]
    | some fi =>
      simp [hpr] at h1
      simp only [processRows, hpr]
      rw [ih, h1]
      simp [List.length_cons]
      omega

/-- The row loop preserves the counter ordering. -/
theorem processRows_inv (f : Bool) (net : String → NetResponse) (now : String) :
    ∀ (rows : List Row) (st : ScrapeState), counterInv st →
    counterInv (processRows f net now st rows).1 := by
  intro rows
  induction rows with
  | nil => intro st h; simpa [processRows] using h
  | cons row rest ih =>
    intro st h
    have hstep := processRow_inv f net now st row h
    cases hpr : (processRow f net now st row).2 with
    | none =>
      simp only [processRows, hpr]
      exact ih _ hstep
    | some fi =>
      simp only [processRows, hpr]
      exact ih _ hstep

/-- The page loop adds to the important counter exactly the number of
records it returns. -/
theorem scrapeLoop_important (f : Bool) (net : String → NetResponse) (now : String)
    (maxP : Option Nat) :
    ∀ (pages : List PageContent) (cur : Nat) (st : ScrapeState),
    (scrapeLoop f net now maxP cur pages st).1.important_forms_found =
      st.important_forms_found + (scrapeLoop f net now maxP cur pages st).2.length := by
  intro pages
  induction pages with
  | nil =>
    intro cur st
    simp only [scrapeLoop]
    split
    · simp
    · simp
  | cons p rest ih =>
    intro cur st
    simp only [scrapeLoop]
    split
    · simp
    · cases hpt : p.table with
      | none => simp [hpt]
      | some trs =>
        simp only [hpt]
        rw [ih]
        rw [processRows_important]
        simp [List.length_append]
        omega

/-- With filtering disabled, the page loop adds to the total counter
exactly the number of records it returns. -/
theorem scrapeLoop_total_false (net : String → NetResponse) (now : String)
    (maxP : Option Nat) :
    ∀ (pages : List PageContent) (cur : Nat) (st : ScrapeState),
    (scrapeLoop false net now maxP cur pages st).1.total_forms_found =
      st.total_forms_found + (scrapeLoop false net now maxP cur pages st).2.length := by
  intro pages
  induction pages with
  | nil =>
    intro cur st
    simp only [scrapeLoop]
    split
    · simp
    · simp
  | cons p rest ih =>
    intro cur st
    simp only [scrapeLoop]
    split
    · simp
    · cases hpt : p.table with
      | none => simp [hpt]
      | some trs =>
        simp only [hpt]
        rw [ih]
        rw [processRows_total_false]
        simp [List.length_append]
        omega

/-- The page loop preserves the counter ordering. -/
theorem scrapeLoop_inv (f : Bool) (net : String → NetResponse) (now : String)
    (maxP : Option Nat) :
    ∀ (pages : List PageContent) (cur : Nat) (st : ScrapeState), counterInv st →
    counterInv (scrapeLoop f net now maxP cur pages st).1 := by
  intro pages
  induction pages with
  | nil =>
    intro cur st h
    simp only [scrapeLoop]
    split
    · exact h
    · exact h
  | cons p rest ih =>
    intro cur st h
    simp only [scrapeLoop]
    split
    · exact h
    · cases hpt : p.table with
      | none => simpa [hpt] using h
      | some trs =>
        simp only [hpt]
        exact ih _ _ (processRows_inv f net now _ st h)

/-- C3 counterexample: a complete run that processes one page and
extracts one record which filtering rejects accepts zero records; the
writer then writes nothing at all, so a prior metadata file survives
with its old row (row count 1, accepted count 0), contradicting the
claim that the full accepted sequence is always written exactly once,
overwriting any prior file. -/
theorem c3_empty_run_keeps_prior_file :
    (scrape_all_pages true (fun _ => none) "" none
      [⟨some [[], [Dom.anchor "zzz" (some "https://x/z.pdf") Dom.nil,
                   Dom.txt "Boring" Dom.nil, Dom.txt "" Dom.nil, Dom.txt "" Dom.nil]]⟩]
      (initState (fun _ => none))
      (some [mkForm "old" "old" "" ""])).2.1 = [] ∧
    (scrape_all_pages true (fun _ => none) "" none
      [⟨some [[], [Dom.anchor "zzz" (some "https://x/z.pdf") Dom.nil,
                   Dom.txt "Boring" Dom.nil, Dom.txt "" Dom.nil, Dom.txt "" Dom.nil]]⟩]
      (initState (fun _ => none))
      (some [mkForm "old" "old" "" ""])).2.2 = some [mkForm "old" "old" "" ""] :=
  ⟨by decide, by decide⟩

/-- C3 (amended): when at least one record is accepted, the writer
writes the full in-memory accepted sequence once at the end of the
run, overwriting any prior file, one row per accepted record, and the
important counter grows by exactly the accepted row count; with
filtering disabled the total counter grows by the same row count (so
rows written equal records extracted); but when zero records are
accepted, nothing is written and a prior file is left untouched. -/
theorem c3_metadata_written_once (filterOn : Bool) (net : String → NetResponse)
    (now : String) (maxP : Option Nat) (pages : List PageContent) (st : ScrapeState)
    (prior : Option (List FormInfo)) :
    ((scrapeLoop filterOn net now maxP 1 pages st).2 ≠ [] →
      (scrape_all_pages filterOn net now maxP pages st prior).2.2 =
        some (scrapeLoop filterOn net now maxP 1 pages st).2) ∧
    ((scrapeLoop filterOn net now maxP 1 pages st).2 = [] →
      (scrape_all_pages filterOn net now maxP pages st prior).2.2 = prior) ∧
    ((scrapeLoop filterOn net now maxP 1 pages st).1.important_forms_found =
      st.important_forms_found + (scrapeLoop filterOn net now maxP 1 pages st).2.length) ∧
    (filterOn = false →
      (scrapeLoop filterOn net now maxP 1 pages st).1.total_forms_found =
        st.total_forms_found + (scrapeLoop filterOn net now maxP 1 pages st).2.length) := by
  refine ⟨?_, ?_, ?_, ?_⟩
  · intro h
    simp [scrape_all_pages, save_metadata, List.isEmpty_eq_true, h]
  · intro h
    simp [scrape_all_pages, save_metadata, h]
  · exact scrapeLoop_important filterOn net now maxP pages 1 st
  · intro hf
    subst hf
    exact scrapeLoop_total_false net now maxP pages 1 st

/-- C3 witness: a filtering-disabled run that accepts one record
writes exactly that sequence to the metadata file and its total
counter equals the row count. -/
theorem c3_witness :
    ((scrape_all_pages false (fun _ => none) "" none
        [⟨some [[], [Dom.anchor "zzz" (some "https://x/z.htm") Dom.nil,
                     Dom.txt "Boring" Dom.nil, Dom.txt "" Dom.nil, Dom.txt "" Dom.nil]]⟩]
        (initState (fun _ => none)) none).2.2 =
      some (scrapeLoop false (fun _ => none) "" none 1
        [⟨some [[], [Dom.anchor "zzz" (some "https://x/z.htm") Dom.nil,
                     Dom.txt "Boring" Dom.nil, Dom.txt "" Dom.nil, Dom.txt "" Dom.nil]]⟩]
        (initState (fun _ => none))).2) ∧
    ((scrapeLoop false (fun _ => none) "" none 1
        [⟨some [[], [Dom.anchor "zzz" (some "https://x/z.htm") Dom.nil,
                     Dom.txt "Boring" Dom.nil, Dom.txt "" Dom.nil, Dom.txt "" Dom.nil]]⟩]
        (initState (fun _ => none))).1.total_forms_found =
      (initState (fun _ => none)).total_forms_found +
        (scrapeLoop false (fun _ => none) "" none 1
          [⟨some [[], [Dom.anchor "zzz" (some "https://x/z.htm") Dom.nil,
                       Dom.txt "Boring" Dom.nil, Dom.txt "" Dom.nil, Dom.txt "" Dom.nil]]⟩]
          (initState (fun _ => none))).2.length) :=
  ⟨(c3_metadata_written_once false (fun _ => none) "" none
      [⟨some [[], [Dom.anchor "zzz" (some "https://x/z.htm") Dom.nil,
                   Dom.txt "Boring" Dom.nil, Dom.txt "" Dom.nil, Dom.txt "" Dom.nil]]⟩]
      (initState (fun _ => none)) none).1 (by decide),
   (c3_metadata_written_once false (fun _ => none) "" none
      [⟨some [[], [Dom.anchor "zzz" (some "https://x/z.htm") Dom.nil,
                   Dom.txt "Boring" Dom.nil, Dom.txt "" Dom.nil, Dom.txt "" Dom.nil]]⟩]
      (initState (fun _ => none)) none).2.2.2 rfl⟩

/-- Under a positive cap N, starting from page number cur with at most
N + 1 - cur pages still allowed, the capped loop behaves exactly like
the uncapped loop run on the truncated page list. -/
theorem scrapeLoop_take_eq (f : Bool) (net : String → NetResponse) (now : String)
    (N : Nat) (hN : 0 < N) :
    ∀ (pages : List PageContent) (cur : Nat) (st : ScrapeState), cur ≤ N + 1 →
    scrapeLoop f net now (some N) cur pages st =
      scrapeLoop f net now none cur (pages.take (N + 1 - cur)) st := by
  intro pages
  induction pages with
  | nil =>
    intro cur st _
    simp only [List.take_nil]
    simp only [scrapeLoop]
    split
    · rfl
    · rfl
  | cons p rest ih =>
    intro cur st hcur
    by_cases hc : cur = N + 1
    · subst hc
      have hcond : (pyTruthy (some N) && decide (N + 1 > (some N).getD 0)) = true := by
        simp [pyTruthy]
        omega
      have h0 : N + 1 - (N + 1) = 0 := by omega
      rw [h0, List.take_zero]
      conv_lhs => rw [scrapeLoop]
      rw [if_pos hcond]
      rfl
    · have hcur' : cur ≤ N := by omega
      have hcond : (pyTruthy (some N) && decide (cur > (some N).getD 0)) = false := by
        simp [pyTruthy]
        omega
      have htake : N + 1 - cur = (N - cur) + 1 := by omega
      rw [htake, List.take_succ_cons]
      conv_lhs => rw [scrapeLoop]
      conv_rhs => rw [scrapeLoop]
      rw [if_neg (by rw [hcond]; simp)]
      rw [if_neg (by simp [pyTruthy])]
      cases hpt : p.table with
      | none => rfl
      | some trs =>
        simp only [hpt]
        have hr : N - cur = N + 1 - (cur + 1) := by omega
        rw [hr, ih (cur + 1) _ (by omega)]

/-- C8: with a positive page cap N and more than N pages available,
the harvester behaves exactly as the uncapped harvester run on the
first N pages only: it processes pages 1 through N in full
(extraction, classification, downloads) and returns only their
accepted records, never touching page N + 1. -/
theorem c8_page_cap (f : Bool) (net : String → NetResponse) (now : String)
    (N : Nat) (pages : List PageContent) (st : ScrapeState)
    (h1 : 0 < N) (h2 : N < pages.length) :
    scrapeLoop f net now (some N) 1 pages st =
      scrapeLoop f net now none 1 (pages.take N) st := by
  have h := scrapeLoop_take_eq f net now N h1 pages 1 st (by omega)
  simpa using h

/-- C8 witness: cap 2 with 3 available pages processes exactly the
first two pages. -/
theorem c8_witness :
    0 < 2 ∧
    2 < ([⟨some []⟩, ⟨some []⟩, ⟨some []⟩] : List PageContent).length ∧
    scrapeLoop true (fun _ => none) "" (some 2) 1
        ([⟨some []⟩, ⟨some []⟩, ⟨some []⟩] : List PageContent)
        (initState (fun _ => none)) =
      scrapeLoop true (fun _ => none) "" none 1
        (([⟨some []⟩, ⟨some []⟩, ⟨some []⟩] : List PageContent).take 2)
        (initState (fun _ => none)) :=
  ⟨by decide, by decide,
   c8_page_cap true (fun _ => none) "" 2
     ([⟨some []⟩, ⟨some []⟩, ⟨some []⟩] : List PageContent)
     (initState (fun _ => none)) (by decide) (by decide)⟩

/-- C9: the counters of one harvester instance always satisfy
downloaded ≤ important ≤ total: the ordering holds at construction,
is preserved by every single row step (the finest grain at which the
counters change, total bumping before important before downloaded),
and is preserved by the whole page loop, so it holds at every point
during and after a harvest. -/
theorem c9_counter_ordering (f : Bool) (net : String → NetResponse) (now : String) :
    (∀ fs : String → Option (List Nat), counterInv (initState fs)) ∧
    (∀ (st : ScrapeState) (row : Row), counterInv st →
      counterInv (processRow f net now st row).1) ∧
    (∀ (maxP : Option Nat) (cur : Nat) (pages : List PageContent) (st : ScrapeState),
      counterInv st → counterInv (scrapeLoop f net now maxP cur pages st).1) :=
  ⟨fun _ => ⟨Nat.le_refl 0, Nat.le_refl 0⟩,
   fun st row h => processRow_inv f net now st row h,
   fun maxP cur pages st h => scrapeLoop_inv f net now maxP pages cur st h⟩

/-- C9 witness: the ordering after a concrete one-page harvest from a
fresh instance. -/
theorem c9_witness :
    counterInv ((scrapeLoop true (fun _ => none) "" none 1
      ([⟨some []⟩] : List PageContent) (initState (fun _ => none))).1) :=
  (c9_counter_ordering true (fun _ => none) "").2.2 none 1
    ([⟨some []⟩] : List PageContent) (initState (fun _ => none))
    ((c9_counter_ordering true (fun _ => none) "").1 (fun _ => none))

/-- C10: a page cap of 0 is falsy in the cap test, so passing 0 gives
exactly the behaviour of passing no cap at all: the loop does not stop
after zero pages but runs until navigation ends. -/
theorem c10_zero_cap_is_no_cap (f : Bool) (net : String → NetResponse) (now : String) :
    ∀ (pages : List PageContent) (cur : Nat) (st : ScrapeState),
    scrapeLoop f net now (some 0) cur pages st =
      scrapeLoop f net now none cur pages st := by
  intro pages
  induction pages with
  | nil =>
    intro cur st
    simp [scrapeLoop, pyTruthy]
  | cons p rest ih =>
    intro cur st
    simp only [scrapeLoop, pyTruthy]
    simp only [bne_self_eq_false, Bool.false_and, Bool.false_eq_true, if_false]
    cases hpt : p.table with
    | none => rfl
    | some trs => simp only [hpt, ih]
